import Mathlib

/-!
Verification of the transaction-keyed voter-registration request registry of
Electorate-Vanadium-Backend.

The HTTP route handlers are embedded from
`src/electos/vanadium/app/route/voter_registration.py`.  The storage object
returned by `Resources.get_storage()` and the identifier generator
(`vanadium.utils.UniqueIds`) are not part of the reviewed sources, so the
registry operations are modelled from the specification (§3, §4.1, §4.2).
-/

namespace Vanadium

/-- Transaction Identifier: an opaque string token (spec §3). -/
abbrev Identifier := String

/-- The request payload posted by a client (`VoterRecordsRequest` in
`vanadium.model`).  It carries an optional `TransactionId`; the rest of the
record is opaque to the registry (spec §3 "Pending Request"), modelled by the
type parameter `V`. -/
structure VoterRecordsRequest (V : Type) where
  transaction_id : Option Identifier
  fields : V
deriving DecidableEq

/-- Error kinds of `vanadium.model.RequestError` used by the routes.  Only
`IDENTITY_LOOKUP_FAILED` ever appears in
`src/electos/vanadium/app/route/voter_registration.py`. -/
inductive RequestError where
  | identity_lookup_failed
deriving DecidableEq

/-- Success actions of `vanadium.model.SuccessAction` used by the routes. -/
inductive SuccessAction where
  | registration_created
  | registration_updated
  | registration_cancelled
deriving DecidableEq

/-- The response envelope returned by a route handler: one of
`RequestSuccess`, `RequestRejection`, `RequestAcknowledgement`
(all `VoterRecordsResponse` sub-classes in `vanadium.model`).
`RequestRejection` carries `AdditionalDetails`, an `Error` list (each entry's
`Name` field), and a `TransactionId` that may be the store's falsy value. -/
inductive VoterRecordsResponse where
  | success (action : List SuccessAction) (transactionId : Option Identifier)
  | rejection (additionalDetails : List String) (errors : List RequestError)
      (transactionId : Option Identifier)
  | acknowledgement (transactionId : Identifier)
deriving DecidableEq

/-- Modelled from the spec: the Request Registry held by the storage object of
`Resources.get_storage()`, whose class is not among the reviewed sources.
Spec §3: "a mapping from Transaction Identifier to Pending Request",
represented as an association list. -/
abbrev Registry (V : Type) := List (Identifier × V)

/-- Modelled from the spec: `lookup(key) -> Request | NotFound` (§4.2).
Returns the stored payload if `key` is present, otherwise `none`. -/
def Registry.lookup {V : Type} : Registry V → Identifier → Option V
  | [], _ => none
  | (k, v) :: rest, key => if k = key then some v else Registry.lookup rest key

/-- Modelled from the spec: `insert(key | absent, payload) -> Identifier |
Rejected` (§4.2).  When the caller supplies no key, the identifier produced by
the Identifier Generator (§4.1, `vanadium.utils.UniqueIds`, not among the
reviewed sources) is passed in as `generated`.  If the resulting key already
exists, the operation is rejected (`none`) and no mutation occurs; otherwise
the pair is stored and the key returned. -/
def Registry.insert {V : Type} (r : Registry V) (key : Option Identifier)
    (generated : Identifier) (payload : V) : Option Identifier × Registry V :=
  let k := key.getD generated
  match Registry.lookup r k with
  | some _ => (none, r)
  | none => (some k, (k, payload) :: r)

/-- Modelled from the spec: `update(key, payload) -> Request | NotFound`
(§4.2).  Strictly replace-if-present: if the key is present the stored payload
is replaced and returned, otherwise `none` and the registry is unchanged. -/
def Registry.update {V : Type} (r : Registry V) (key : Identifier)
    (payload : V) : Option V × Registry V :=
  match Registry.lookup r key with
  | some _ =>
      (some payload, r.map (fun kv => if kv.1 = key then (key, payload) else kv))
  | none => (none, r)

/-- Modelled from the spec: `remove(key) -> Removed | NotFound` (§4.2).
If the key is present it is deleted and confirmation returned, otherwise
`NotFound` (`false`) and the registry is unchanged. -/
def Registry.remove {V : Type} (r : Registry V) (key : Identifier) :
    Bool × Registry V :=
  match Registry.lookup r key with
  | some _ => (true, r.filter (fun kv => kv.1 != key))
  | none => (false, r)

/-- HTTP status constant `status.HTTP_400_BAD_REQUEST` from `fastapi`. -/
def HTTP_400_BAD_REQUEST : Nat := 400

/-- HTTP status constant `status.HTTP_404_NOT_FOUND` from `fastapi`. -/
def HTTP_404_NOT_FOUND : Nat := 404

/-- Python truthiness of the value returned by `storage.insert`: `None` and
the empty string are falsy, every other string is truthy. -/
def truthyId : Option Identifier → Bool
  | none => false
  | some s => s != ""

/-- Embeds `voter_registration_request` (POST handler,
`voter_registration.py` lines 31-66).  Calls
`storage.insert(item.transaction_id, item)`; on a truthy result returns a
`RequestSuccess` with `REGISTRATION_CREATED`, else a `RequestRejection`
carrying `IDENTITY_LOOKUP_FAILED` and the falsy `registration_id`, and sets
the HTTP status to 400.  The handler's mutation of `http_response` is modelled
by threading the status code; the nondeterministic generated identifier is the
explicit argument `generated`. -/
def voter_registration_request {V : Type}
    (storage : Registry (VoterRecordsRequest V)) (generated : Identifier)
    (item : VoterRecordsRequest V) (statusCode : Nat) :
    VoterRecordsResponse × Registry (VoterRecordsRequest V) × Nat :=
  let result := Registry.insert storage item.transaction_id generated item
  let registrationId := result.1
  let storage1 := result.2
  if truthyId registrationId then
    (VoterRecordsResponse.success [SuccessAction.registration_created]
       registrationId,
     storage1, statusCode)
  else
    (VoterRecordsResponse.rejection
       ["Voter registration request already exists. The transaction ID is already associated to a pending request."]
       [RequestError.identity_lookup_failed]
       registrationId,
     storage1, HTTP_400_BAD_REQUEST)

/-- Embeds `voter_registration_status` (GET handler,
`voter_registration.py` lines 76-123).  Calls
`storage.lookup(transaction_id)`; a stored payload object is always truthy in
Python, so the branch test is presence.  On success returns a
`RequestAcknowledgement`; otherwise a `RequestRejection` carrying
`IDENTITY_LOOKUP_FAILED` and the path's `transaction_id`, with HTTP 404. -/
def voter_registration_status {V : Type}
    (storage : Registry (VoterRecordsRequest V)) (transaction_id : Identifier)
    (statusCode : Nat) :
    VoterRecordsResponse × Registry (VoterRecordsRequest V) × Nat :=
  match Registry.lookup storage transaction_id with
  | some _ =>
      (VoterRecordsResponse.acknowledgement transaction_id,
       storage, statusCode)
  | none =>
      (VoterRecordsResponse.rejection
         ["Voter registration request not found. The transaction ID isn't associated with any pending requests."]
         [RequestError.identity_lookup_failed]
         (some transaction_id),
       storage, HTTP_404_NOT_FOUND)

/-- Embeds `voter_registration_update` (PUT handler,
`voter_registration.py` lines 133-172).  Calls
`storage.update(transaction_id, item)`; the returned payload object is always
truthy in Python, so the branch test is presence.  On success returns a
`RequestSuccess` with `REGISTRATION_UPDATED`; otherwise a `RequestRejection`
carrying `IDENTITY_LOOKUP_FAILED`, with HTTP 404. -/
def voter_registration_update {V : Type}
    (storage : Registry (VoterRecordsRequest V)) (transaction_id : Identifier)
    (item : VoterRecordsRequest V) (statusCode : Nat) :
    VoterRecordsResponse × Registry (VoterRecordsRequest V) × Nat :=
  let result := Registry.update storage transaction_id item
  let value := result.1
  let storage1 := result.2
  match value with
  | some _ =>
      (VoterRecordsResponse.success [SuccessAction.registration_updated]
         (some transaction_id),
       storage1, statusCode)
  | none =>
      (VoterRecordsResponse.rejection
         ["Voter registration request not found. The transaction ID isn't associated with any pending requests."]
         [RequestError.identity_lookup_failed]
         (some transaction_id),
       storage1, HTTP_404_NOT_FOUND)

/-- Embeds `voter_registration_cancel` (DELETE handler,
`voter_registration.py` lines 182-211).  Calls
`storage.remove(transaction_id)`; on a truthy confirmation returns a
`RequestSuccess` with `REGISTRATION_CANCELLED`; otherwise a
`RequestRejection` carrying `IDENTITY_LOOKUP_FAILED`, with HTTP 404. -/
def voter_registration_cancel {V : Type}
    (storage : Registry (VoterRecordsRequest V)) (transaction_id : Identifier)
    (statusCode : Nat) :
    VoterRecordsResponse × Registry (VoterRecordsRequest V) × Nat :=
  let result := Registry.remove storage transaction_id
  let value := result.1
  let storage1 := result.2
  match value with
  | true =>
      (VoterRecordsResponse.success [SuccessAction.registration_cancelled]
         (some transaction_id),
       storage1, statusCode)
  | false =>
      (VoterRecordsResponse.rejection
         ["Voter registration request not found. The transaction ID isn't associated with any pending requests."]
         [RequestError.identity_lookup_failed]
         (some transaction_id),
       storage1, HTTP_404_NOT_FOUND)

/-- Filtering a registry cannot make an absent key present. -/
theorem lookup_filter_of_none {V : Type} (q : Identifier × V → Bool)
    (r : Registry V) (k : Identifier) (h : Registry.lookup r k = none) :
    Registry.lookup (r.filter q) k = none := by
  induction r with
  | nil => simp [Registry.lookup]
  | cons hd t ih =>
    obtain ⟨k1, v⟩ := hd
    rw [Registry.lookup] at h
    by_cases hk : k1 = k
    · rw [if_pos hk] at h
      exact absurd h (by simp)
    · rw [if_neg hk] at h
      rw [List.filter_cons]
      by_cases hq : q (k1, v)
      · simp [hq, Registry.lookup, hk, ih h]
      · simp [hq, ih h]

/-- After filtering out all entries with key `k`, looking up `k` fails. -/
theorem lookup_filter_ne {V : Type} (r : Registry V) (k : Identifier) :
    Registry.lookup (r.filter (fun kv => kv.1 != k)) k = none := by
  induction r with
  | nil => simp [Registry.lookup]
  | cons hd t ih =>
    obtain ⟨k1, v⟩ := hd
    rw [List.filter_cons]
    by_cases hk : k1 = k
    · simp [hk, ih]
    · simp [hk, Registry.lookup, ih]

/-- Replacing the entry at key `j` cannot make a different absent key present. -/
theorem lookup_map_replace_of_none {V : Type} (r : Registry V)
    (j k : Identifier) (p : V) (hjk : j ≠ k)
    (h : Registry.lookup r k = none) :
    Registry.lookup (r.map (fun kv => if kv.1 = j then (j, p) else kv)) k
      = none := by
  induction r with
  | nil => simp [Registry.lookup]
  | cons hd t ih =>
    obtain ⟨k1, v⟩ := hd
    rw [Registry.lookup] at h
    by_cases hk : k1 = k
    · rw [if_pos hk] at h
      exact absurd h (by simp)
    · rw [if_neg hk] at h
      rw [List.map_cons]
      by_cases hj : k1 = j
      · subst hj
        have hhead :
            (if (k1, v).1 = k1 then (k1, p) else (k1, v)) = (k1, p) := by
          simp
        rw [hhead, Registry.lookup, if_neg hk]
        exact ih h
      · have hhead :
            (if (k1, v).1 = j then (j, p) else (k1, v)) = (k1, v) := by
          simp [hj]
        rw [hhead, Registry.lookup, if_neg hk]
        exact ih h

/-- Replacing the entry at a present key `k` makes lookup of `k` return the
new payload. -/
theorem lookup_map_replace_self {V : Type} (r : Registry V) (k : Identifier)
    (p : V) (h : (Registry.lookup r k).isSome) :
    Registry.lookup (r.map (fun kv => if kv.1 = k then (k, p) else kv)) k
      = some p := by
  induction r with
  | nil => simp [Registry.lookup] at h
  | cons hd t ih =>
    obtain ⟨k1, v⟩ := hd
    rw [Registry.lookup] at h
    rw [List.map_cons]
    by_cases hk : k1 = k
    · subst hk
      have hhead :
          (if (k1, v).1 = k1 then (k1, p) else (k1, v)) = (k1, p) := by
        simp
      rw [hhead, Registry.lookup, if_pos rfl]
    · rw [if_neg hk] at h
      have hhead :
          (if (k1, v).1 = k then (k, p) else (k1, v)) = (k1, v) := by
        simp [hk]
      rw [hhead, Registry.lookup, if_neg hk]
      exact ih h

/-- After a remove, the removed key is absent, whether or not it was present. -/
theorem lookup_remove_self {V : Type} (r : Registry V) (k : Identifier) :
    Registry.lookup (Registry.remove r k).2 k = none := by
  unfold Registry.remove
  cases hl : Registry.lookup r k with
  | none => simp [hl]
  | some v => simp [hl, lookup_filter_ne]

/-- C1: a create request whose transaction identifier already exists in the
registry is Rejected with error kind `IdentityLookupFailed`, and the registry
state is unchanged — no entry is overwritten or added and the cardinality
stays the same. -/
theorem C1_insert_existing_rejected {V : Type}
    (r : Registry (VoterRecordsRequest V)) (g tid : Identifier)
    (item : VoterRecordsRequest V) (st : Nat)
    (htid : item.transaction_id = some tid)
    (hmem : (Registry.lookup r tid).isSome) :
    voter_registration_request r g item st =
      (VoterRecordsResponse.rejection
        ["Voter registration request already exists. The transaction ID is already associated to a pending request."]
        [RequestError.identity_lookup_failed] none,
       r, HTTP_400_BAD_REQUEST) ∧
    (voter_registration_request r g item st).2.1.length = r.length := by
  obtain ⟨v, hv⟩ := Option.isSome_iff_exists.mp hmem
  have hins : Registry.insert r item.transaction_id g item = (none, r) := by
    rw [Registry.insert]
    simp [htid, hv]
  have hmain : voter_registration_request r g item st =
      (VoterRecordsResponse.rejection
        ["Voter registration request already exists. The transaction ID is already associated to a pending request."]
        [RequestError.identity_lookup_failed] none,
       r, HTTP_400_BAD_REQUEST) := by
    rw [voter_registration_request]
    simp [hins, truthyId]
  exact ⟨hmain, by rw [hmain]⟩

/-- C1 witness: a concrete create request on a registry already holding its
transaction identifier. -/
theorem C1_witness :
    voter_registration_request
        [("tx-1", (⟨some "tx-1", 0⟩ : VoterRecordsRequest Nat))] "g1"
        ⟨some "tx-1", 1⟩ 200 =
      (VoterRecordsResponse.rejection
        ["Voter registration request already exists. The transaction ID is already associated to a pending request."]
        [RequestError.identity_lookup_failed] none,
       [("tx-1", (⟨some "tx-1", 0⟩ : VoterRecordsRequest Nat))],
       HTTP_400_BAD_REQUEST) ∧
    (voter_registration_request
        [("tx-1", (⟨some "tx-1", 0⟩ : VoterRecordsRequest Nat))] "g1"
        ⟨some "tx-1", 1⟩ 200).2.1.length =
      [("tx-1", (⟨some "tx-1", 0⟩ : VoterRecordsRequest Nat))].length :=
  C1_insert_existing_rejected
    [("tx-1", (⟨some "tx-1", 0⟩ : VoterRecordsRequest Nat))] "g1" "tx-1"
    ⟨some "tx-1", 1⟩ 200 rfl (by decide)

/-- C2: a create with no supplied transaction identifier uses the identifier
produced by the Identifier Generator; under the generator freshness contract
(spec §4.1) the insert succeeds, returns the generated key — absent from the
registry at call time — and stores the payload under it. -/
theorem C2_insert_generated_fresh {V : Type} (r : Registry V)
    (g : Identifier) (p : V) (hfresh : Registry.lookup r g = none) :
    (Registry.insert r none g p).1 = some g ∧
    Registry.lookup (Registry.insert r none g p).2 g = some p ∧
    (Registry.insert r none g p).2 = (g, p) :: r := by
  have hins : Registry.insert r none g p = (some g, (g, p) :: r) := by
    rw [Registry.insert]
    simp [hfresh]
  refine ⟨by rw [hins], ?_, by rw [hins]⟩
  rw [hins]
  simp [Registry.lookup]

/-- C2 witness: a generated identifier fresh for a concrete registry. -/
theorem C2_witness :
    (Registry.insert ([("a", 1)] : Registry Nat) none "b" 2).1 = some "b" ∧
    Registry.lookup (Registry.insert ([("a", 1)] : Registry Nat) none "b" 2).2 "b"
      = some 2 ∧
    (Registry.insert ([("a", 1)] : Registry Nat) none "b" 2).2
      = ("b", 2) :: [("a", 1)] :=
  C2_insert_generated_fresh [("a", 1)] "b" 2 (by decide)

/-- C3: on an absent key the update and cancel handlers return NotFound
rejections and leave the registry unchanged; moreover no update or remove on
any key can make an absent key present — insert is the only operation that
introduces a key. -/
theorem C3_absent_no_phantom {V : Type}
    (r : Registry (VoterRecordsRequest V)) (k : Identifier)
    (item : VoterRecordsRequest V) (st : Nat)
    (habs : Registry.lookup r k = none) :
    voter_registration_update r k item st =
      (VoterRecordsResponse.rejection
        ["Voter registration request not found. The transaction ID isn't associated with any pending requests."]
        [RequestError.identity_lookup_failed] (some k),
       r, HTTP_404_NOT_FOUND) ∧
    voter_registration_cancel r k st =
      (VoterRecordsResponse.rejection
        ["Voter registration request not found. The transaction ID isn't associated with any pending requests."]
        [RequestError.identity_lookup_failed] (some k),
       r, HTTP_404_NOT_FOUND) ∧
    (∀ (j : Identifier) (p : VoterRecordsRequest V),
        Registry.lookup (Registry.update r j p).2 k = none) ∧
    (∀ j : Identifier, Registry.lookup (Registry.remove r j).2 k = none) := by
  have hupd : Registry.update r k item = (none, r) := by
    rw [Registry.update]
    simp [habs]
  have hrem : Registry.remove r k = (false, r) := by
    rw [Registry.remove]
    simp [habs]
  refine ⟨?_, ?_, ?_, ?_⟩
  · rw [voter_registration_update]
    simp [hupd]
  · rw [voter_registration_cancel]
    simp [hrem]
  · intro j p
    rw [Registry.update]
    cases hl : Registry.lookup r j with
    | none => simpa using habs
    | some w =>
        have hjk : j ≠ k := by
          intro hEq
          rw [hEq] at hl
          rw [habs] at hl
          exact Option.noConfusion hl
        simpa using lookup_map_replace_of_none r j k p hjk habs
  · intro j
    rw [Registry.remove]
    cases hl : Registry.lookup r j with
    | none => simpa using habs
    | some w => simpa using lookup_filter_of_none _ r k habs

/-- C3 witness: a concrete absent key against a one-entry registry. -/
theorem C3_witness :
    voter_registration_update
        [("tx-1", (⟨some "tx-1", 0⟩ : VoterRecordsRequest Nat))] "missing"
        ⟨some "missing", 1⟩ 200 =
      (VoterRecordsResponse.rejection
        ["Voter registration request not found. The transaction ID isn't associated with any pending requests."]
        [RequestError.identity_lookup_failed] (some "missing"),
       [("tx-1", (⟨some "tx-1", 0⟩ : VoterRecordsRequest Nat))],
       HTTP_404_NOT_FOUND) ∧
    voter_registration_cancel
        [("tx-1", (⟨some "tx-1", 0⟩ : VoterRecordsRequest Nat))] "missing" 200 =
      (VoterRecordsResponse.rejection
        ["Voter registration request not found. The transaction ID isn't associated with any pending requests."]
        [RequestError.identity_lookup_failed] (some "missing"),
       [("tx-1", (⟨some "tx-1", 0⟩ : VoterRecordsRequest Nat))],
       HTTP_404_NOT_FOUND) ∧
    (∀ (j : Identifier) (p : VoterRecordsRequest Nat),
        Registry.lookup
          (Registry.update
            [("tx-1", (⟨some "tx-1", 0⟩ : VoterRecordsRequest Nat))] j p).2
          "missing" = none) ∧
    (∀ j : Identifier,
        Registry.lookup
          (Registry.remove
            [("tx-1", (⟨some "tx-1", 0⟩ : VoterRecordsRequest Nat))] j).2
          "missing" = none) :=
  C3_absent_no_phantom
    [("tx-1", (⟨some "tx-1", 0⟩ : VoterRecordsRequest Nat))] "missing"
    ⟨some "missing", 1⟩ 200 (by decide)

/-- C4: on a present key, the update handler succeeds and fully replaces the
stored payload — a subsequent lookup returns exactly the new payload (last
writer wins, no merging) — and the status handler then acknowledges the key. -/
theorem C4_update_replaces {V : Type}
    (r : Registry (VoterRecordsRequest V)) (k : Identifier)
    (p2 : VoterRecordsRequest V) (st st2 : Nat)
    (h : (Registry.lookup r k).isSome) :
    (voter_registration_update r k p2 st).1 =
      VoterRecordsResponse.success [SuccessAction.registration_updated]
        (some k) ∧
    Registry.lookup (voter_registration_update r k p2 st).2.1 k = some p2 ∧
    (voter_registration_status (voter_registration_update r k p2 st).2.1 k
        st2).1 =
      VoterRecordsResponse.acknowledgement k := by
  obtain ⟨v, hv⟩ := Option.isSome_iff_exists.mp h
  have hupd : Registry.update r k p2 =
      (some p2, r.map (fun kv => if kv.1 = k then (k, p2) else kv)) := by
    rw [Registry.update]
    simp [hv]
  have hstate : (voter_registration_update r k p2 st).2.1 =
      r.map (fun kv => if kv.1 = k then (k, p2) else kv) := by
    rw [voter_registration_update]
    simp [hupd]
  have hlook :
      Registry.lookup (voter_registration_update r k p2 st).2.1 k = some p2 := by
    rw [hstate]
    exact lookup_map_replace_self r k p2 h
  refine ⟨?_, hlook, ?_⟩
  · rw [voter_registration_update]
    simp [hupd]
  · rw [voter_registration_status]
    simp [hlook]

/-- C4 witness: updating a concrete present key replaces its payload. -/
theorem C4_witness :
    (voter_registration_update
        [("tx-2", (⟨some "tx-2", 4⟩ : VoterRecordsRequest Nat))] "tx-2"
        ⟨some "tx-2", 5⟩ 200).1 =
      VoterRecordsResponse.success [SuccessAction.registration_updated]
        (some "tx-2") ∧
    Registry.lookup
        (voter_registration_update
          [("tx-2", (⟨some "tx-2", 4⟩ : VoterRecordsRequest Nat))] "tx-2"
          ⟨some "tx-2", 5⟩ 200).2.1 "tx-2" =
      some ⟨some "tx-2", 5⟩ ∧
    (voter_registration_status
        (voter_registration_update
          [("tx-2", (⟨some "tx-2", 4⟩ : VoterRecordsRequest Nat))] "tx-2"
          ⟨some "tx-2", 5⟩ 200).2.1 "tx-2" 200).1 =
      VoterRecordsResponse.acknowledgement "tx-2" :=
  C4_update_replaces
    [("tx-2", (⟨some "tx-2", 4⟩ : VoterRecordsRequest Nat))] "tx-2"
    ⟨some "tx-2", 5⟩ 200 200 (by decide)

/-- C5: cancel on a present key succeeds and deletes the entry; cancel on an
absent key returns NotFound; hence two cancels in a row on the same key
succeed the first time and fail with NotFound the second time. -/
theorem C5_remove_twice {V : Type}
    (r : Registry (VoterRecordsRequest V)) (k : Identifier) (st st2 : Nat)
    (h : (Registry.lookup r k).isSome) :
    (voter_registration_cancel r k st).1 =
      VoterRecordsResponse.success [SuccessAction.registration_cancelled]
        (some k) ∧
    Registry.lookup (voter_registration_cancel r k st).2.1 k = none ∧
    (voter_registration_cancel (voter_registration_cancel r k st).2.1 k
        st2).1 =
      VoterRecordsResponse.rejection
        ["Voter registration request not found. The transaction ID isn't associated with any pending requests."]
        [RequestError.identity_lookup_failed] (some k) ∧
    (∀ r2 : Registry (VoterRecordsRequest V), Registry.lookup r2 k = none →
        (voter_registration_cancel r2 k st2).1 =
          VoterRecordsResponse.rejection
            ["Voter registration request not found. The transaction ID isn't associated with any pending requests."]
            [RequestError.identity_lookup_failed] (some k)) := by
  obtain ⟨v, hv⟩ := Option.isSome_iff_exists.mp h
  have hrem : Registry.remove r k = (true, r.filter (fun kv => kv.1 != k)) := by
    rw [Registry.remove]
    simp [hv]
  have habs2 : ∀ r2 : Registry (VoterRecordsRequest V),
      Registry.lookup r2 k = none →
      (voter_registration_cancel r2 k st2).1 =
        VoterRecordsResponse.rejection
          ["Voter registration request not found. The transaction ID isn't associated with any pending requests."]
          [RequestError.identity_lookup_failed] (some k) := by
    intro r2 h2
    have hrem2 : Registry.remove r2 k = (false, r2) := by
      rw [Registry.remove]
      simp [h2]
    rw [voter_registration_cancel]
    simp [hrem2]
  have hstate : (voter_registration_cancel r k st).2.1 =
      r.filter (fun kv => kv.1 != k) := by
    rw [voter_registration_cancel]
    simp [hrem]
  have hgone : Registry.lookup (voter_registration_cancel r k st).2.1 k
      = none := by
    rw [hstate]
    exact lookup_filter_ne r k
  refine ⟨?_, hgone, habs2 _ hgone, habs2⟩
  rw [voter_registration_cancel]
  simp [hrem]

/-- C5 witness: deleting a concrete present key twice. -/
theorem C5_witness :
    (voter_registration_cancel
        [("tx-2", (⟨some "tx-2", 4⟩ : VoterRecordsRequest Nat))] "tx-2"
        200).1 =
      VoterRecordsResponse.success [SuccessAction.registration_cancelled]
        (some "tx-2") ∧
    Registry.lookup
        (voter_registration_cancel
          [("tx-2", (⟨some "tx-2", 4⟩ : VoterRecordsRequest Nat))] "tx-2"
          200).2.1 "tx-2" = none ∧
    (voter_registration_cancel
        (voter_registration_cancel
          [("tx-2", (⟨some "tx-2", 4⟩ : VoterRecordsRequest Nat))] "tx-2"
          200).2.1 "tx-2" 200).1 =
      VoterRecordsResponse.rejection
        ["Voter registration request not found. The transaction ID isn't associated with any pending requests."]
        [RequestError.identity_lookup_failed] (some "tx-2") ∧
    (∀ r2 : Registry (VoterRecordsRequest Nat),
        Registry.lookup r2 "tx-2" = none →
        (voter_registration_cancel r2 "tx-2" 200).1 =
          VoterRecordsResponse.rejection
            ["Voter registration request not found. The transaction ID isn't associated with any pending requests."]
            [RequestError.identity_lookup_failed] (some "tx-2")) :=
  C5_remove_twice
    [("tx-2", (⟨some "tx-2", 4⟩ : VoterRecordsRequest Nat))] "tx-2" 200 200
    (by decide)

/-- C6: removing a present key and then inserting under the same explicit key
succeeds — a removed key is immediately reusable, with no memory of prior
occupancy — and the reinserted payload is then found under the key. -/
theorem C6_remove_then_insert {V : Type} (r : Registry V) (k g : Identifier)
    (p2 : V) (h : (Registry.lookup r k).isSome) :
    (Registry.remove r k).1 = true ∧
    (Registry.insert (Registry.remove r k).2 (some k) g p2).1 = some k ∧
    Registry.lookup (Registry.insert (Registry.remove r k).2 (some k) g p2).2 k
      = some p2 := by
  obtain ⟨v, hv⟩ := Option.isSome_iff_exists.mp h
  have hrem : Registry.remove r k = (true, r.filter (fun kv => kv.1 != k)) := by
    rw [Registry.remove]
    simp [hv]
  have hgone : Registry.lookup (Registry.remove r k).2 k = none :=
    lookup_remove_self r k
  have hins : Registry.insert (Registry.remove r k).2 (some k) g p2 =
      (some k, (k, p2) :: (Registry.remove r k).2) := by
    rw [Registry.insert]
    simp [hgone]
  refine ⟨by rw [hrem], by rw [hins], ?_⟩
  rw [hins]
  simp [Registry.lookup]

/-- C6 witness: a concrete present key removed and reinserted. -/
theorem C6_witness :
    (Registry.remove ([("tx-2", 4)] : Registry Nat) "tx-2").1 = true ∧
    (Registry.insert (Registry.remove ([("tx-2", 4)] : Registry Nat) "tx-2").2
        (some "tx-2") "g" 6).1 = some "tx-2" ∧
    Registry.lookup
        (Registry.insert
          (Registry.remove ([("tx-2", 4)] : Registry Nat) "tx-2").2
          (some "tx-2") "g" 6).2 "tx-2" = some 6 :=
  C6_remove_then_insert [("tx-2", 4)] "tx-2" "g" 6 (by decide)

/-- C7: every rejection produced by any of the four handlers carries exactly
the single error kind `IdentityLookupFailed`; failures are returned as
explicit response values (the handlers are total functions into
`VoterRecordsResponse`), never thrown. -/
theorem C7_single_error_kind {V : Type}
    (r : Registry (VoterRecordsRequest V)) (g : Identifier)
    (item : VoterRecordsRequest V) (k : Identifier) (st : Nat) :
    (∀ d e t, (voter_registration_request r g item st).1 =
        VoterRecordsResponse.rejection d e t →
        e = [RequestError.identity_lookup_failed]) ∧
    (∀ d e t, (voter_registration_status r k st).1 =
        VoterRecordsResponse.rejection d e t →
        e = [RequestError.identity_lookup_failed]) ∧
    (∀ d e t, (voter_registration_update r k item st).1 =
        VoterRecordsResponse.rejection d e t →
        e = [RequestError.identity_lookup_failed]) ∧
    (∀ d e t, (voter_registration_cancel r k st).1 =
        VoterRecordsResponse.rejection d e t →
        e = [RequestError.identity_lookup_failed]) := by
  refine ⟨?_, ?_, ?_, ?_⟩
  · intro d e t hEq
    rw [voter_registration_request] at hEq
    by_cases htr : truthyId (Registry.insert r item.transaction_id g item).1
    · simp [htr] at hEq
    · simp [htr] at hEq
      exact hEq.2.1.symm
  · intro d e t hEq
    rw [voter_registration_status] at hEq
    cases hl : Registry.lookup r k with
    | some v =>
        rw [hl] at hEq
        simp at hEq
    | none =>
        rw [hl] at hEq
        simp at hEq
        exact hEq.2.1.symm
  · intro d e t hEq
    rw [voter_registration_update] at hEq
    cases hu : (Registry.update r k item).1 with
    | some v =>
        rw [hu] at hEq
        simp at hEq
    | none =>
        rw [hu] at hEq
        simp at hEq
        exact hEq.2.1.symm
  · intro d e t hEq
    rw [voter_registration_cancel] at hEq
    cases hc : (Registry.remove r k).1 with
    | true =>
        rw [hc] at hEq
        simp at hEq
    | false =>
        rw [hc] at hEq
        simp at hEq
        exact hEq.2.1.symm

/-- C7 witness: a concrete rejection from the status handler on an empty
registry carries exactly the single error kind. -/
theorem C7_witness :
    (voter_registration_status ([] : Registry (VoterRecordsRequest Nat))
        "missing" 200).1 =
      VoterRecordsResponse.rejection
        ["Voter registration request not found. The transaction ID isn't associated with any pending requests."]
        [RequestError.identity_lookup_failed] (some "missing") ∧
    ([RequestError.identity_lookup_failed] : List RequestError) =
      [RequestError.identity_lookup_failed] :=
  ⟨rfl,
   (C7_single_error_kind ([] : Registry (VoterRecordsRequest Nat)) "g"
      ⟨none, 0⟩ "missing" 200).2.1
     ["Voter registration request not found. The transaction ID isn't associated with any pending requests."]
     [RequestError.identity_lookup_failed] (some "missing") rfl⟩

/-- C9: when the create request's transaction identifier is already present,
the store's insert returns its falsy value (`none`), and the rejection
envelope's `TransactionId` field carries that `none` — not the
caller-supplied identifier. -/
theorem C9_rejection_transaction_id_none {V : Type}
    (r : Registry (VoterRecordsRequest V)) (g tid : Identifier)
    (item : VoterRecordsRequest V) (st : Nat)
    (htid : item.transaction_id = some tid)
    (hmem : (Registry.lookup r tid).isSome) :
    (Registry.insert r item.transaction_id g item).1 = none ∧
    (voter_registration_request r g item st).1 =
      VoterRecordsResponse.rejection
        ["Voter registration request already exists. The transaction ID is already associated to a pending request."]
        [RequestError.identity_lookup_failed] none ∧
    (none : Option Identifier) ≠ some tid := by
  obtain ⟨v, hv⟩ := Option.isSome_iff_exists.mp hmem
  have hins : Registry.insert r item.transaction_id g item = (none, r) := by
    rw [Registry.insert]
    simp [htid, hv]
  refine ⟨by rw [hins], ?_, by simp⟩
  rw [voter_registration_request]
  simp [hins, truthyId]

/-- C9 witness: a concrete duplicate create request whose rejection envelope
carries `none`, not the caller-supplied transaction identifier. -/
theorem C9_witness :
    (Registry.insert
        [("tx-1", (⟨some "tx-1", 0⟩ : VoterRecordsRequest Nat))]
        (some "tx-1") "g1" ⟨some "tx-1", 1⟩).1 = none ∧
    (voter_registration_request
        [("tx-1", (⟨some "tx-1", 0⟩ : VoterRecordsRequest Nat))] "g1"
        ⟨some "tx-1", 1⟩ 200).1 =
      VoterRecordsResponse.rejection
        ["Voter registration request already exists. The transaction ID is already associated to a pending request."]
        [RequestError.identity_lookup_failed] none ∧
    (none : Option Identifier) ≠ some "tx-1" :=
  C9_rejection_transaction_id_none
    [("tx-1", (⟨some "tx-1", 0⟩ : VoterRecordsRequest Nat))] "g1" "tx-1"
    ⟨some "tx-1", 1⟩ 200 rfl (by decide)

/-- C10: an insert rejection sets HTTP status 400, a not-found outcome of
status lookup, update, or cancel sets 404, and every successful outcome
returns the default status unchanged. -/
theorem C10_http_status_codes {V : Type}
    (r : Registry (VoterRecordsRequest V)) (g : Identifier)
    (item : VoterRecordsRequest V) (k : Identifier) (st : Nat) :
    (∀ d e t, (voter_registration_request r g item st).1 =
        VoterRecordsResponse.rejection d e t →
        (voter_registration_request r g item st).2.2 = HTTP_400_BAD_REQUEST) ∧
    (∀ a t, (voter_registration_request r g item st).1 =
        VoterRecordsResponse.success a t →
        (voter_registration_request r g item st).2.2 = st) ∧
    (∀ d e t, (voter_registration_status r k st).1 =
        VoterRecordsResponse.rejection d e t →
        (voter_registration_status r k st).2.2 = HTTP_404_NOT_FOUND) ∧
    (∀ t, (voter_registration_status r k st).1 =
        VoterRecordsResponse.acknowledgement t →
        (voter_registration_status r k st).2.2 = st) ∧
    (∀ d e t, (voter_registration_update r k item st).1 =
        VoterRecordsResponse.rejection d e t →
        (voter_registration_update r k item st).2.2 = HTTP_404_NOT_FOUND) ∧
    (∀ a t, (voter_registration_update r k item st).1 =
        VoterRecordsResponse.success a t →
        (voter_registration_update r k item st).2.2 = st) ∧
    (∀ d e t, (voter_registration_cancel r k st).1 =
        VoterRecordsResponse.rejection d e t →
        (voter_registration_cancel r k st).2.2 = HTTP_404_NOT_FOUND) ∧
    (∀ a t, (voter_registration_cancel r k st).1 =
        VoterRecordsResponse.success a t →
        (voter_registration_cancel r k st).2.2 = st) := by
  refine ⟨?_, ?_, ?_, ?_, ?_, ?_, ?_, ?_⟩
  · intro d e t hEq
    rw [voter_registration_request] at hEq ⊢
    by_cases htr : truthyId (Registry.insert r item.transaction_id g item).1
    · simp [htr] at hEq
    · simp [htr]
  · intro a t hEq
    rw [voter_registration_request] at hEq ⊢
    by_cases htr : truthyId (Registry.insert r item.transaction_id g item).1
    · simp [htr]
    · simp [htr] at hEq
  · intro d e t hEq
    rw [voter_registration_status] at hEq ⊢
    cases hl : Registry.lookup r k with
    | some v =>
        rw [hl] at hEq
        simp at hEq
    | none => rfl
  · intro t hEq
    rw [voter_registration_status] at hEq ⊢
    cases hl : Registry.lookup r k with
    | some v => rfl
    | none =>
        rw [hl] at hEq
        simp at hEq
  · intro d e t hEq
    rw [voter_registration_update] at hEq ⊢
    cases hu : (Registry.update r k item).1 with
    | some v =>
        rw [hu] at hEq
        simp at hEq
    | none => rfl
  · intro a t hEq
    rw [voter_registration_update] at hEq ⊢
    cases hu : (Registry.update r k item).1 with
    | some v => rfl
    | none =>
        rw [hu] at hEq
        simp at hEq
  · intro d e t hEq
    rw [voter_registration_cancel] at hEq ⊢
    cases hc : (Registry.remove r k).1 with
    | true =>
        rw [hc] at hEq
        simp at hEq
    | false => rfl
  · intro a t hEq
    rw [voter_registration_cancel] at hEq ⊢
    cases hc : (Registry.remove r k).1 with
    | true => rfl
    | false =>
        rw [hc] at hEq
        simp at hEq

/-- C10 witness: concrete failing and successful calls exercise each status
branch — a duplicate create gets 400, a missing status lookup gets 404, and a
successful create keeps the default status. -/
theorem C10_witness :
    (voter_registration_request
        [("tx-1", (⟨some "tx-1", 0⟩ : VoterRecordsRequest Nat))] "g1"
        ⟨some "tx-1", 1⟩ 200).2.2 = HTTP_400_BAD_REQUEST ∧
    (voter_registration_status
        [("tx-1", (⟨some "tx-1", 0⟩ : VoterRecordsRequest Nat))] "missing"
        200).2.2 = HTTP_404_NOT_FOUND ∧
    (voter_registration_status
        [("tx-1", (⟨some "tx-1", 0⟩ : VoterRecordsRequest Nat))] "tx-1"
        200).2.2 = 200 :=
  ⟨(C10_http_status_codes
      [("tx-1", (⟨some "tx-1", 0⟩ : VoterRecordsRequest Nat))] "g1"
      ⟨some "tx-1", 1⟩ "missing" 200).1
     ["Voter registration request already exists. The transaction ID is already associated to a pending request."]
     [RequestError.identity_lookup_failed] none rfl,
   (C10_http_status_codes
      [("tx-1", (⟨some "tx-1", 0⟩ : VoterRecordsRequest Nat))] "g1"
      ⟨some "tx-1", 1⟩ "missing" 200).2.2.1
     ["Voter registration request not found. The transaction ID isn't associated with any pending requests."]
     [RequestError.identity_lookup_failed] (some "missing") rfl,
   (C10_http_status_codes
      [("tx-1", (⟨some "tx-1", 0⟩ : VoterRecordsRequest Nat))] "g1"
      ⟨some "tx-1", 1⟩ "tx-1" 200).2.2.2.1 "tx-1" rfl⟩

end Vanadium

namespace Vanadium

example :
    (Registry.insert ([] : Registry Nat) (some "tx-1") "g" 7).1 = some "tx-1" := by
  decide

example :
    (Registry.insert ([("tx-1", 7)] : Registry Nat) (some "tx-1") "g" 8).1 = none := by
  decide

example :
    Registry.lookup ((Registry.update ([("tx-2", 4)] : Registry Nat) "tx-2" 5).2) "tx-2"
      = some 5 := by
  decide

example :
    (Registry.remove ([("tx-2", 4)] : Registry Nat) "tx-2") = (true, []) := by
  decide

end Vanadium
